import Mathlib

/-!
# Verification of the jubilee-backend authentication / password-reset flow

Shallow embedding of the auth flow of the repository:
  - src/src/services/UserService.js        (UserService)
  - src/src/services/facilityService.js    (AuthController, second file in that blob)
  - src/src/test/request.test.js           (second file in that blob: Mailer, showing
    sendVerificationEmail returns a Bool and never throws)

Collaborators whose source is not under src/ (the utils helpers: token codec,
password hasher, response envelope, ApiError; the Sequelize User model) are
modelled from the specification, and each such definition says so in its doc
comment.  Everything else is translated directly from the JavaScript source.
-/

namespace Jubilee

/-- A JSON-ish value as it appears in a response envelope.  Needed because the
mailer-failure path of sendResetPasswordEmail puts the mailer's boolean `false`
where a message string normally goes. -/
inductive Value where
  | str (s : String)
  | bool (b : Bool)
deriving DecidableEq, Repr

/-- Token claims payload.  Modelled from the spec: "Token claims:
`{ id, email, role?, firstName? }` plus an expiry" (the helpers module holding
generateToken/verifyToken is not under src/). -/
structure Claims where
  id : Nat
  email : String
  role : Option String
  firstName : Option String
deriving DecidableEq, Repr

/-- A signed token.  Modelled from the spec: self-contained, embeds the claims
and an expiry instant; `sig` is true for tokens signed with the server secret
(a tampered or foreign token has `sig = false`). -/
structure Token where
  claims : Claims
  exp : Nat
  sig : Bool
deriving DecidableEq, Repr

/-- Modelled from the spec: helpers.generateToken (src/utils is missing).
Issues a signed token embedding the claims plus an expiry `now + ttl`;
no side effects. -/
def generateToken (c : Claims) (ttl : Nat) (now : Nat) : Token :=
  { claims := c, exp := now + ttl, sig := true }

/-- The 24h lifetime passed explicitly for password-reset tokens
(generateToken({...}, '24h') in AuthController.sendResetPasswordEmail),
in seconds. -/
def ttl24h : Nat := 86400

/-- Modelled from the spec: the default (session/signup) token lifetime used
when generateToken is called with one argument.  No claim depends on its
value. -/
def defaultTTL : Nat := 86400

/-- Modelled from the spec: helpers.verifyToken (src/utils is missing).
Returns the claims when the signature is valid and the token unexpired;
otherwise raises an error whose message is "Invalid Token" — per the spec's
error taxonomy, bad signature, malformed payload and expiry are all
`InvalidToken` and are "not separately distinguished to the client", and
AuthController.verifyEmail discriminates by exactly this message string. -/
def verifyToken (t : Token) (now : Nat) : Except String Claims :=
  if t.sig ∧ now < t.exp then .ok t.claims else .error "Invalid Token"

/-- Modelled from the spec: helpers.hashPassword (src/utils is missing), the
one-way digest applied at the accessor boundary.  Modelled as a tagging
function whose output is never equal to (and longer than) its input, standing
in for the bcrypt digest. -/
def hashPassword (p : String) : String := "hashed$" ++ p

/-- Modelled from the spec: helpers.comparePassword (src/utils is missing),
the boolean match check of a plaintext against a stored digest. -/
def comparePassword (p digest : String) : Bool := hashPassword p == digest

/-- A row of the User table.  Fields restricted to those the auth flow reads
or writes. -/
structure UserRec where
  id : Nat
  firstName : String
  lastName : String
  email : String
  password : String
  role : String
  isVerified : Bool
deriving DecidableEq, Repr

/-- The persistent store: the User table plus the next fresh primary key. -/
structure DB where
  users : List UserRec
  nextId : Nat
deriving DecidableEq, Repr

/-- Sequelize User.findOne({ where: { email } }): first row with that email. -/
def User.findOne (email : String) (db : DB) : Option UserRec :=
  db.users.find? (fun u => u.email == email)

/-- The field updates the auth flow passes to User.update: `{isVerified: true}`
in verifyEmail, `{password: hash}` in updatePassword. -/
structure UserUpdate where
  isVerified : Option Bool
  password : Option String
deriving DecidableEq, Repr

/-- Applies a partial update to a row. -/
def applyUpdate (f : UserUpdate) (u : UserRec) : UserRec :=
  { u with
    isVerified := f.isVerified.getD u.isVerified
    password := f.password.getD u.password }

/-- Sequelize User.update(fields, { where, returning: true }): updates every
matching row, returning the affected-row count, the updated rows, and the new
table state.  Modelled from the spec's accessor contract (src/models is
missing). -/
def User.update (f : UserUpdate) (p : UserRec → Bool) (db : DB) :
    Nat × List UserRec × DB :=
  let rows := (db.users.filter p).map (applyUpdate f)
  (rows.length,
   rows,
   { db with users := db.users.map (fun u => if p u then applyUpdate f u else u) })

/-- A signup body: the user profile plus the plaintext password. -/
structure NewUser where
  firstName : String
  lastName : String
  email : String
  password : String
  role : String
deriving DecidableEq, Repr

/-- Sequelize User.create(user): inserts a fresh row; the store's unique-email
constraint rejects a duplicate email (spec: "relies entirely on the store's
uniqueness constraint").  The row's isVerified starts false — modelled from
the spec ("isVerified starts false"), the model definition being outside
src/. -/
def User.create (user : NewUser) (db : DB) : Except String (UserRec × DB) :=
  if db.users.any (fun u => u.email == user.email) then
    .error "Validation error"
  else
    let row : UserRec :=
      { id := db.nextId, firstName := user.firstName, lastName := user.lastName,
        email := user.email, password := user.password, role := user.role,
        isVerified := false }
    .ok (row, { users := db.users ++ [row], nextId := db.nextId + 1 })

/-- UserService.create (UserService.js:18-22).  Line 19 overwrites the
`password` field of the caller-supplied object in place with the hash before
persisting it; the first component of the result is the state of the caller's
object after the call (it is the same reference that was persisted), the
second is what User.create returned. -/
def UserService.create (user : NewUser) (db : DB) :
    NewUser × Except String (UserRec × DB) :=
  let mutated := { user with password := hashPassword user.password }
  (mutated, User.create mutated db)

/-- UserService.updateById (UserService.js:35-39): destructures
`[rowaffected, [user]]` from User.update and throws Error('Not Found') when
the affected-row count is zero. -/
def UserService.updateById (userData : UserUpdate) (id : Nat) (db : DB) :
    Except String (UserRec × DB) :=
  let r := User.update userData (fun u => u.id == id) db
  match r.2.1 with
  | [] => .error "Not Found"
  | u :: _ => .ok (u, r.2.2)

/-- UserService.find (UserService.js:47-49). -/
def UserService.find (email : String) (db : DB) : Option UserRec :=
  User.findOne email db

/-- UserService.updatePassword (UserService.js:58-63): hashes the new password
and updates every row with the given email, returning Sequelize's
`[affectedCount, affectedRows]` result. -/
def UserService.updatePassword (password email : String) (db : DB) :
    Nat × List UserRec × DB :=
  User.update { isVerified := none, password := some (hashPassword password) }
    (fun u => u.email == email) db

/-- UserService.userLogin (UserService.js:95-99). -/
def UserService.userLogin (email : String) (db : DB) : Option UserRec :=
  User.findOne email db

/-- Modelled from the spec: the ApiError class (src/utils is missing) carries
an HTTP status and a message; handlers read the status as `.status` or
`.statusCode`. -/
structure ApiError where
  status : Nat
  message : Value
deriving DecidableEq, Repr

/-- The statusCode read in AuthController.socialLogin's catch clause. -/
def ApiError.statusCode (e : ApiError) : Nat := e.status

/-- The externally-authenticated identity handed to social login; `email`
stands for `.emails[0].value`, the minimum the spec guarantees. -/
structure SocialIdentity where
  email : String
deriving DecidableEq, Repr

/-- UserService.socialLogin (UserService.js:74-88).  The whole body sits in a
try block whose catch rethrows `new ApiError(500, error.message)`; since the
`throw new ApiError(403, ...)` for an unknown email is inside that same try
block, the catch intercepts it too and rewraps it as a 500 with the same
message. -/
def UserService.socialLogin (userData : SocialIdentity) (db : DB) :
    Except ApiError UserRec :=
  let inner : Except ApiError UserRec :=
    match User.findOne userData.email db with
    | none => .error { status := 403, message := .str "You need to signup to use this feature" }
    | some u => .ok u
  match inner with
  | .ok u => .ok u
  | .error e => .error { status := 500, message := e.message }

/-- Modelled from the spec: the UserResponse shaper (src/utils is missing)
projects a user record into a client-safe representation — it strips the
password hash (the structure has no password field) and includes the token
when one was attached. -/
structure UserResponse where
  id : Nat
  firstName : String
  lastName : String
  email : String
  role : String
  isVerified : Bool
  token : Option Token
deriving DecidableEq, Repr

/-- Builds the shaped response from a row and an optional attached token. -/
def UserResponse.of (u : UserRec) (token : Option Token) : UserResponse :=
  { id := u.id, firstName := u.firstName, lastName := u.lastName,
    email := u.email, role := u.role, isVerified := u.isVerified,
    token := token }

/-- The data payloads the auth handlers put in a success envelope. -/
inductive RData where
  | user (u : UserResponse)
  | userWithEmailSent (u : UserResponse) (emailSent : Bool)
  | msg (s : String)
deriving DecidableEq, Repr

/-- The JSON envelope: helpers.successResponse / helpers.errorResponse,
modelled from the spec's HTTP surface (src/utils is missing):
`{status:'success', data}` with an HTTP code, or `{status:'error',
error:{code,message}}`. -/
inductive Response where
  | success (code : Nat) (data : RData)
  | error (code : Nat) (message : Value)
deriving DecidableEq, Repr

/-- Modelled from the spec: errorResponse(res, {}) — the blanket failure all
untyped errors collapse to: a 500 with a fixed generic message that echoes no
internal error text. -/
def genericFailure : Response := .error 500 (.str "Some error occurred.")

/-- The res.cookie('token', token, { maxAge: 86400000, httpOnly: true }) call
made by signUp and loginUser. -/
structure CookieSet where
  token : Token
  maxAge : Nat
  httpOnly : Bool
deriving DecidableEq, Repr

/-- A handler outcome: the JSON envelope plus the cookie it set, if any. -/
structure HttpResult where
  response : Response
  cookie : Option CookieSet
deriving DecidableEq, Repr

/-- AuthController.signUp (facilityService.js blob, lines 117-130): persist
the user (password hashed at the accessor boundary), issue a token over
{email, id, role}, shape the response, send the verification email
(`mailOk` is the boolean the Mailer returns — its source in the
request.test.js blob shows it never throws), set the token cookie
(maxAge 86400000, httpOnly), respond 201 with the shaped user plus the
emailSent flag; any error thrown while persisting collapses to the generic
failure with no cookie. -/
def AuthController.signUp (body : NewUser) (now : Nat) (mailOk : Bool) (db : DB) :
    HttpResult × DB :=
  match (UserService.create body db).2 with
  | .error _ => ({ response := genericFailure, cookie := none }, db)
  | .ok (newUser, db2) =>
    let token := generateToken
      { id := newUser.id, email := newUser.email, role := some newUser.role,
        firstName := none } defaultTTL now
    let ur := UserResponse.of newUser (some token)
    ({ response := .success 201 (.userWithEmailSent ur mailOk),
       cookie := some { token := token, maxAge := 86400000, httpOnly := true } },
     db2)

/-- The catch clause of AuthController.verifyEmail (lines 148-157): branches
on the caught error's message by string equality. -/
def verifyEmailCatch (msg : String) : Response :=
  if msg == "Invalid Token" then
    .error 400 (.str "Invalid token, verification unsuccessful")
  else if msg == "Not Found" then
    .error 400 (.str "no user found to verify")
  else genericFailure

/-- AuthController.verifyEmail (lines 141-158): verify the query token,
set isVerified true for the decoded id, respond with the shaped user; the
catch maps 'Invalid Token' and 'Not Found' to their 400 responses and
anything else to the generic failure. -/
def AuthController.verifyEmail (token : Token) (now : Nat) (db : DB) :
    Response × DB :=
  match verifyToken token now with
  | .error m => (verifyEmailCatch m, db)
  | .ok decoded =>
    match UserService.updateById { isVerified := some true, password := none }
        decoded.id db with
    | .error m => (verifyEmailCatch m, db)
    | .ok (user, db2) => (.success 200 (.user (UserResponse.of user none)), db2)

/-- The reset link built in sendResetPasswordEmail:
`protocol://host/api/auth/reset-password?token=` with the token embedded as
the query parameter. -/
structure ResetLink where
  protocol : String
  host : String
  token : Token
deriving DecidableEq, Repr

/-- The argument object passed to mailer.sendResetMail. -/
structure ResetMailPayload where
  email : String
  firstName : String
  resetPasswordLink : ResetLink
deriving DecidableEq, Repr

/-- AuthController.sendResetPasswordEmail (lines 168-190): look the user up
by the body email — absent throws ApiError(404, 'User account does not
exist'); else issue a 24h token over {firstName, id, email}, build the reset
link and invoke the mailer with it (the second component records the
invocation's payload, none when the mailer was never reached); a mailer
result other than `true` throws ApiError(404, response) whose message is the
mailer's boolean false; the catch renders err.status (404 here) and
err.message. -/
def AuthController.sendResetPasswordEmail (email protoc host : String)
    (now : Nat) (mailOk : Bool) (db : DB) : Response × Option ResetMailPayload :=
  match UserService.find email db with
  | none => (.error 404 (.str "User account does not exist"), none)
  | some user =>
    let token := generateToken
      { id := user.id, email := email, role := none,
        firstName := some user.firstName } ttl24h now
    let payload : ResetMailPayload :=
      { email := email, firstName := user.firstName,
        resetPasswordLink := { protocol := protoc, host := host, token := token } }
    if mailOk then
      (.success 200 (.msg "Password reset link sent successfully"), some payload)
    else
      (.error 404 (.bool false), some payload)

/-- AuthController.resetPassword (lines 200-214): update the stored hash for
the path email; an affected-row count of exactly 1 responds 200 with the
confirmation string, anything else throws ApiError(404, 'User account does
not exist') which the catch renders with code err.status.  The table update
has already happened in either branch. -/
def AuthController.resetPassword (email password : String) (db : DB) :
    Response × DB :=
  let r := UserService.updatePassword password email db
  if r.1 == 1 then
    (.success 200 (.msg "Password has been changed successfully"), r.2.2)
  else
    (.error 404 (.str "User account does not exist"), r.2.2)

/-- The full reset-password request as it arrives at the endpoint: the path
email, the body password, and whatever reset token the client may still be
carrying (the handler never reads one — no token parameter appears in
lines 200-214). -/
structure ResetRequest where
  paramsEmail : String
  bodyPassword : String
  queryToken : Option Token
deriving DecidableEq, Repr

/-- AuthController.resetPassword applied to a whole request object: only
req.params.email and req.body.password are consumed. -/
def AuthController.resetPasswordRequest (req : ResetRequest) (db : DB) :
    Response × DB :=
  AuthController.resetPassword req.paramsEmail req.bodyPassword db

/-- AuthController.loginUser (lines 243-261): look the user up by email —
absent responds 401 'Invalid login details'; a failing comparePassword
responds the identical 401; on match issue a token over {email, id, role},
set the cookie and respond 200 with the shaped user. -/
def AuthController.loginUser (email password : String) (now : Nat) (db : DB) :
    HttpResult :=
  match UserService.userLogin email db with
  | none => { response := .error 401 (.str "Invalid login details"), cookie := none }
  | some user =>
    if !(comparePassword password user.password) then
      { response := .error 401 (.str "Invalid login details"), cookie := none }
    else
      let token := generateToken
        { id := user.id, email := user.email, role := some user.role,
          firstName := none } defaultTTL now
      { response := .success 200 (.user (UserResponse.of user (some token))),
        cookie := some { token := token, maxAge := 86400000, httpOnly := true } }

/-- AuthController.socialLogin (lines 273-282): delegate to
UserService.socialLogin; on error respond with error.statusCode and
error.message; on success issue a token and respond 200 with the shaped
user. -/
def AuthController.socialLogin (userData : SocialIdentity) (now : Nat) (db : DB) :
    Response :=
  match UserService.socialLogin userData db with
  | .error e => .error e.statusCode e.message
  | .ok user =>
    let token := generateToken
      { id := user.id, email := user.email, role := some user.role,
        firstName := none } defaultTTL now
    .success 200 (.user (UserResponse.of user (some token)))

/-- The operations of the auth flow, for stating flow-wide invariants.  The
handlers that never write to the store (sendResetPasswordEmail, loginUser,
socialLogin, logout, verifyPasswordResetLink — their bodies only read) leave
the DB unchanged by the very type of their embedding. -/
inductive Op where
  | opSignUp (body : NewUser) (now : Nat) (mailOk : Bool)
  | opVerifyEmail (token : Token) (now : Nat)
  | opSendResetPasswordEmail (email protoc host : String) (now : Nat) (mailOk : Bool)
  | opResetPassword (email password : String)
  | opLoginUser (email password : String) (now : Nat)
  | opSocialLogin (userData : SocialIdentity) (now : Nat)
  | opLogout
deriving DecidableEq, Repr

/-- The store after one handler invocation. -/
def step (op : Op) (db : DB) : DB :=
  match op with
  | .opSignUp body now mailOk => (AuthController.signUp body now mailOk db).2
  | .opVerifyEmail token now => (AuthController.verifyEmail token now db).2
  | .opResetPassword email password => (AuthController.resetPassword email password db).2
  | .opSendResetPasswordEmail _ _ _ _ _ => db
  | .opLoginUser _ _ _ => db
  | .opSocialLogin _ _ => db
  | .opLogout => db

/-- Discriminates the verify-email operation. -/
def Op.isVerifyEmail : Op → Bool
  | .opVerifyEmail _ _ => true
  | _ => false

/-! ## Fixtures used by witnesses and counterexample evaluations -/

/-- A registered user row used as a concrete fixture. -/
def sampleUser : UserRec :=
  { id := 1, firstName := "Ada", lastName := "Lovelace",
    email := "ada@example.com", password := hashPassword "correct-horse",
    role := "requester", isVerified := false }

/-- A store holding exactly sampleUser. -/
def sampleDb : DB := { users := [sampleUser], nextId := 2 }

/-- An empty store. -/
def emptyDb : DB := { users := [], nextId := 1 }

/-- A concrete claims payload. -/
def sampleClaims : Claims :=
  { id := 1, email := "ada@example.com", role := some "requester", firstName := none }

/-- A concrete signup body. -/
def sampleNewUser : NewUser :=
  { firstName := "Grace", lastName := "Hopper", email := "grace@example.com",
    password := "pa55word", role := "requester" }

/-- The row UserService.create inserts for sampleNewUser into emptyDb. -/
def sampleCreatedRow : UserRec :=
  { id := 1, firstName := "Grace", lastName := "Hopper",
    email := "grace@example.com", password := hashPassword "pa55word",
    role := "requester", isVerified := false }

/-- The store after that insertion. -/
def sampleCreatedDb : DB := { users := [sampleCreatedRow], nextId := 2 }

/-! ## Helper lemmas -/

/-- The modelled digest never coincides with its plaintext input. -/
theorem hashPassword_ne_plaintext (p : String) : hashPassword p ≠ p := by
  intro h
  have hlen := congrArg String.length h
  have h7 : ("hashed$" : String).length = 7 := rfl
  rw [hashPassword, String.length_append, h7] at hlen
  omega

/-! ## Claim theorems -/

/-- Claim C1 (code-bug evidence): for a social identity whose email has no
matching local row, AuthController.socialLogin responds 500 — not the 403 the
thrown ApiError(403, ...) intends — because UserService.socialLogin's own
catch intercepts that throw and rewraps it as ApiError(500, message).  The
matching-account half of the claim does hold: a present email yields 200 with
a shaped user carrying a token. -/
theorem socialLogin_unknown_email_yields_500 :
    AuthController.socialLogin { email := "nobody@example.com" } 0 emptyDb =
      .error 500 (.str "You need to signup to use this feature") ∧
    AuthController.socialLogin { email := "ada@example.com" } 0 sampleDb =
      .success 200 (.user (UserResponse.of sampleUser
        (some (generateToken
          { id := 1, email := "ada@example.com", role := some "requester",
            firstName := none } defaultTTL 0)))) := by
  constructor <;> rfl

/-- Claim C2: the two login failure causes — no row with the given email, and
a present row whose stored hash fails comparePassword — produce the identical
response: 401 "Invalid login details" with no cookie set. -/
theorem loginUser_enumeration_resistance :
    ∀ (email password : String) (now : Nat) (db : DB),
    (UserService.userLogin email db = none →
      AuthController.loginUser email password now db =
        { response := .error 401 (.str "Invalid login details"), cookie := none }) ∧
    (∀ user, UserService.userLogin email db = some user →
      comparePassword password user.password = false →
      AuthController.loginUser email password now db =
        { response := .error 401 (.str "Invalid login details"), cookie := none }) := by
  intro email password now db
  constructor
  · intro h
    unfold AuthController.loginUser
    rw [h]
  · intro user h hcmp
    unfold AuthController.loginUser
    rw [h]
    simp [hcmp]

/-- Witness for C2 at concrete inputs: an unknown email, and sampleUser's
email with a wrong password, both answered by the same 401 envelope. -/
theorem loginUser_enumeration_resistance_witness :
    AuthController.loginUser "ghost@example.com" "pw" 0 sampleDb =
      { response := .error 401 (.str "Invalid login details"), cookie := none } ∧
    AuthController.loginUser "ada@example.com" "wrong" 0 sampleDb =
      { response := .error 401 (.str "Invalid login details"), cookie := none } :=
  ⟨(loginUser_enumeration_resistance "ghost@example.com" "pw" 0 sampleDb).1 rfl,
   (loginUser_enumeration_resistance "ada@example.com" "wrong" 0 sampleDb).2
     sampleUser rfl rfl⟩

/-- Claim C3: AuthController.resetPassword performs no token verification —
two requests agreeing on the path email and body password receive the same
outcome (response and store update) whatever reset token either carries. -/
theorem resetPassword_independent_of_token :
    ∀ (r1 r2 : ResetRequest) (db : DB),
    r1.paramsEmail = r2.paramsEmail → r1.bodyPassword = r2.bodyPassword →
    AuthController.resetPasswordRequest r1 db =
      AuthController.resetPasswordRequest r2 db := by
  intro r1 r2 db he hp
  unfold AuthController.resetPasswordRequest
  rw [he, hp]

/-- Witness for C3: a request presenting a valid 24h reset token and one
presenting no token at all are answered identically. -/
theorem resetPassword_independent_of_token_witness :
    AuthController.resetPasswordRequest
      { paramsEmail := "ada@example.com", bodyPassword := "newpw",
        queryToken := some (generateToken
          { id := 1, email := "ada@example.com", role := none,
            firstName := some "Ada" } ttl24h 0) } sampleDb =
    AuthController.resetPasswordRequest
      { paramsEmail := "ada@example.com", bodyPassword := "newpw",
        queryToken := none } sampleDb :=
  resetPassword_independent_of_token _ _ sampleDb rfl rfl

/-- Claim C9: verifying a token freshly issued from a claims payload (at any
instant before its expiry) returns exactly that payload, and verifying it at
or after the expiry instant fails with the InvalidToken error. -/
theorem token_roundtrip_and_expiry :
    ∀ (c : Claims) (now ttl t : Nat),
    (t < now + ttl → verifyToken (generateToken c ttl now) t = .ok c) ∧
    (now + ttl ≤ t →
      verifyToken (generateToken c ttl now) t = .error "Invalid Token") := by
  intro c now ttl t
  constructor
  · intro h
    simp [verifyToken, generateToken, h]
  · intro h
    simp [verifyToken, generateToken]
    omega

/-- Witness for C9: a token issued at 100 with a 60-unit lifetime verifies to
its claims at 120 and fails at 160. -/
theorem token_roundtrip_and_expiry_witness :
    verifyToken (generateToken sampleClaims 60 100) 120 = .ok sampleClaims ∧
    verifyToken (generateToken sampleClaims 60 100) 160 = .error "Invalid Token" :=
  ⟨(token_roundtrip_and_expiry sampleClaims 100 60 120).1 (by omega),
   (token_roundtrip_and_expiry sampleClaims 100 60 160).2 (by omega)⟩

/-- Claim C10: after UserService.create the caller's object holds the hash in
its password field — never the plaintext — and any successfully returned
record holds that same hash. -/
theorem create_strips_plaintext :
    ∀ (user : NewUser) (db : DB),
    ((UserService.create user db).1.password = hashPassword user.password) ∧
    ((UserService.create user db).1.password ≠ user.password) ∧
    (∀ row db2, (UserService.create user db).2 = .ok (row, db2) →
      row.password = hashPassword user.password) := by
  intro user db
  refine ⟨rfl, hashPassword_ne_plaintext user.password, ?_⟩
  intro row db2 h
  simp only [UserService.create, User.create] at h
  split at h
  · exact absurd h (by simp)
  · simp only [Except.ok.injEq, Prod.mk.injEq] at h
    rw [← h.1]

/-- Witness for C10 at a concrete signup body and empty store. -/
theorem create_strips_plaintext_witness :
    ((UserService.create sampleNewUser emptyDb).1.password =
      hashPassword sampleNewUser.password) ∧
    ((UserService.create sampleNewUser emptyDb).1.password ≠
      sampleNewUser.password) ∧
    sampleCreatedRow.password = hashPassword sampleNewUser.password :=
  ⟨(create_strips_plaintext sampleNewUser emptyDb).1,
   (create_strips_plaintext sampleNewUser emptyDb).2.1,
   (create_strips_plaintext sampleNewUser emptyDb).2.2
     sampleCreatedRow sampleCreatedDb rfl⟩

/-- A token whose signature check fails. -/
def badToken : Token := { claims := sampleClaims, exp := 1000, sig := false }

/-- A validly signed token whose claims id matches no row of sampleDb. -/
def orphanToken : Token :=
  generateToken
    { id := 99, email := "gone@example.com", role := some "requester",
      firstName := none } defaultTTL 0

/-- Claim C4: the verifyEmail failure mapping — an InvalidToken verification
failure yields 400 "Invalid token, verification unsuccessful"; a valid token
whose decoded id matches no row yields 400 "no user found to verify"; any
other caught error message yields the generic failure, which carries no
detail of the error. -/
theorem verifyEmail_failure_mapping :
    ∀ (token : Token) (now : Nat) (db : DB),
    (verifyToken token now = .error "Invalid Token" →
      AuthController.verifyEmail token now db =
        (.error 400 (.str "Invalid token, verification unsuccessful"), db)) ∧
    (∀ decoded, verifyToken token now = .ok decoded →
      db.users.filter (fun u => u.id == decoded.id) = [] →
      AuthController.verifyEmail token now db =
        (.error 400 (.str "no user found to verify"), db)) ∧
    (∀ msg, msg ≠ "Invalid Token" → msg ≠ "Not Found" →
      verifyEmailCatch msg = genericFailure) := by
  intro token now db
  refine ⟨?_, ?_, ?_⟩
  · intro h
    unfold AuthController.verifyEmail
    rw [h]
    rfl
  · intro decoded h hf
    unfold AuthController.verifyEmail
    rw [h]
    have hupd : UserService.updateById
        { isVerified := some true, password := none } decoded.id db =
        .error "Not Found" := by
      simp only [UserService.updateById, User.update, hf, List.map_nil]
    dsimp only
    rw [hupd]
    rfl
  · intro msg h1 h2
    unfold verifyEmailCatch
    simp [h1, h2]

/-- Witness for C4: a badly signed token, a valid token for the absent id 99,
and the unmatched message "boom". -/
theorem verifyEmail_failure_mapping_witness :
    AuthController.verifyEmail badToken 0 sampleDb =
      (.error 400 (.str "Invalid token, verification unsuccessful"), sampleDb) ∧
    AuthController.verifyEmail orphanToken 0 sampleDb =
      (.error 400 (.str "no user found to verify"), sampleDb) ∧
    verifyEmailCatch "boom" = genericFailure :=
  ⟨(verifyEmail_failure_mapping badToken 0 sampleDb).1 rfl,
   (verifyEmail_failure_mapping orphanToken 0 sampleDb).2.1
     orphanToken.claims rfl rfl,
   (verifyEmail_failure_mapping badToken 0 sampleDb).2.2 "boom"
     (by decide) (by decide)⟩

/-- Claim C5: an affected-row count of exactly 1 makes resetPassword respond
200 with the confirmation string; a count of 0 makes it respond 404 "User
account does not exist". -/
theorem resetPassword_row_count :
    ∀ (email password : String) (db : DB),
    ((UserService.updatePassword password email db).1 = 1 →
      (AuthController.resetPassword email password db).1 =
        .success 200 (.msg "Password has been changed successfully")) ∧
    ((UserService.updatePassword password email db).1 = 0 →
      (AuthController.resetPassword email password db).1 =
        .error 404 (.str "User account does not exist")) := by
  intro email password db
  constructor
  · intro h
    simp only [AuthController.resetPassword, h]
    rfl
  · intro h
    simp only [AuthController.resetPassword, h]
    rfl

/-- Witness for C5: sampleDb holds exactly one row for ada@example.com (count
1 succeeds) and none for ghost@example.com (count 0 fails). -/
theorem resetPassword_row_count_witness :
    (AuthController.resetPassword "ada@example.com" "newpw" sampleDb).1 =
      .success 200 (.msg "Password has been changed successfully") ∧
    (AuthController.resetPassword "ghost@example.com" "newpw" sampleDb).1 =
      .error 404 (.str "User account does not exist") :=
  ⟨(resetPassword_row_count "ada@example.com" "newpw" sampleDb).1 rfl,
   (resetPassword_row_count "ghost@example.com" "newpw" sampleDb).2 rfl⟩

/-- Claim C6: sendResetPasswordEmail fails 404 "User account does not exist"
when no row has the body email; otherwise it issues a 24h token over
{firstName, id, email}, invokes the mailer with the reset link embedding that
token, responds 200 with the confirmation string on mailer success, and on
mailer failure fails with a 404-coded error whose message is the mailer's
boolean false. -/
theorem sendResetPasswordEmail_behavior :
    ∀ (email protoc host : String) (now : Nat) (mailOk : Bool) (db : DB),
    (UserService.find email db = none →
      AuthController.sendResetPasswordEmail email protoc host now mailOk db =
        (.error 404 (.str "User account does not exist"), none)) ∧
    (∀ user, UserService.find email db = some user →
      AuthController.sendResetPasswordEmail email protoc host now mailOk db =
        ((if mailOk then
            Response.success 200 (.msg "Password reset link sent successfully")
          else
            Response.error 404 (.bool false)),
         some { email := email, firstName := user.firstName,
                resetPasswordLink :=
                  { protocol := protoc, host := host,
                    token := generateToken
                      { id := user.id, email := email, role := none,
                        firstName := some user.firstName } ttl24h now } })) := by
  intro email protoc host now mailOk db
  constructor
  · intro h
    unfold AuthController.sendResetPasswordEmail
    rw [h]
  · intro user h
    unfold AuthController.sendResetPasswordEmail
    rw [h]
    cases mailOk <;> rfl

/-- Witness for C6: the unknown email fails 404; ada@example.com with a
failing mailer yields the 404 whose message is the boolean false, with the
mailer having been invoked with the 24h-token reset link. -/
theorem sendResetPasswordEmail_behavior_witness :
    AuthController.sendResetPasswordEmail "ghost@example.com" "https" "app.test"
      0 true sampleDb = (.error 404 (.str "User account does not exist"), none) ∧
    AuthController.sendResetPasswordEmail "ada@example.com" "https" "app.test"
      0 false sampleDb =
      (.error 404 (.bool false),
       some { email := "ada@example.com", firstName := "Ada",
              resetPasswordLink :=
                { protocol := "https", host := "app.test",
                  token := generateToken
                    { id := 1, email := "ada@example.com", role := none,
                      firstName := some "Ada" } ttl24h 0 } }) :=
  ⟨(sendResetPasswordEmail_behavior "ghost@example.com" "https" "app.test"
      0 true sampleDb).1 rfl,
   (sendResetPasswordEmail_behavior "ada@example.com" "https" "app.test"
      0 false sampleDb).2 sampleUser rfl⟩

/-- Claim C7: whenever persisting the user succeeds, signUp responds 201 with
the shaped user whatever the mailer reported; the emailSent flag is exactly
the mailer's boolean (false exactly on mailer failure), and the issued token
is set as an httpOnly cookie with maxAge 86400000 ms (24h). -/
theorem signUp_mail_best_effort :
    ∀ (body : NewUser) (now : Nat) (mailOk : Bool) (db : DB)
      (newUser : UserRec) (db2 : DB),
    (UserService.create body db).2 = .ok (newUser, db2) →
    AuthController.signUp body now mailOk db =
      ({ response := .success 201 (.userWithEmailSent
            (UserResponse.of newUser (some (generateToken
              { id := newUser.id, email := newUser.email,
                role := some newUser.role, firstName := none } defaultTTL now)))
            mailOk),
         cookie := some
           { token := generateToken
               { id := newUser.id, email := newUser.email,
                 role := some newUser.role, firstName := none } defaultTTL now,
             maxAge := 86400000, httpOnly := true } }, db2) := by
  intro body now mailOk db newUser db2 h
  unfold AuthController.signUp
  rw [h]

/-- Witness for C7: sampleNewUser persists into emptyDb while the mailer
fails; the response is still 201, with emailSent false and the 24h httpOnly
cookie. -/
theorem signUp_mail_best_effort_witness :
    AuthController.signUp sampleNewUser 0 false emptyDb =
      ({ response := .success 201 (.userWithEmailSent
            (UserResponse.of sampleCreatedRow (some (generateToken
              { id := sampleCreatedRow.id, email := sampleCreatedRow.email,
                role := some sampleCreatedRow.role, firstName := none }
              defaultTTL 0))) false),
         cookie := some
           { token := generateToken
               { id := sampleCreatedRow.id, email := sampleCreatedRow.email,
                 role := some sampleCreatedRow.role, firstName := none }
               defaultTTL 0,
             maxAge := 86400000, httpOnly := true } }, sampleCreatedDb) :=
  signUp_mail_best_effort sampleNewUser 0 false emptyDb
    sampleCreatedRow sampleCreatedDb rfl

/-! ## Shape lemmas for the store after each handler -/

/-- A successful User.create inserts a row that starts unverified, appended
to the table. -/
theorem User.create_ok (user : NewUser) (db : DB) (row : UserRec) (db2 : DB)
    (h : User.create user db = .ok (row, db2)) :
    row.isVerified = false ∧ db2.users = db.users ++ [row] := by
  unfold User.create at h
  split at h
  · exact absurd h (by simp)
  · simp only [Except.ok.injEq, Prod.mk.injEq] at h
    obtain ⟨hrow, hdb⟩ := h
    subst hrow
    subst hdb
    exact ⟨rfl, rfl⟩

/-- After signUp the table is unchanged or extended by one unverified row. -/
theorem signUp_users_shape (body : NewUser) (now : Nat) (mailOk : Bool) (db : DB) :
    (AuthController.signUp body now mailOk db).2.users = db.users ∨
    ∃ row : UserRec, row.isVerified = false ∧
      (AuthController.signUp body now mailOk db).2.users = db.users ++ [row] := by
  unfold AuthController.signUp
  cases hc : (UserService.create body db).2 with
  | error e =>
    left
    simp only [hc]
  | ok p =>
    obtain ⟨row, db2⟩ := p
    have hc2 : User.create { body with password := hashPassword body.password } db
        = .ok (row, db2) := hc
    have hR := User.create_ok _ db row db2 hc2
    right
    refine ⟨row, hR.1, ?_⟩
    simp only [hc]
    exact hR.2

/-- A successful updateById leaves the table pointwise updated at the rows
matching the id. -/
theorem UserService.updateById_ok (f : UserUpdate) (id : Nat) (db : DB)
    (u : UserRec) (db2 : DB)
    (h : UserService.updateById f id db = .ok (u, db2)) :
    db2.users = db.users.map (fun v => if v.id == id then applyUpdate f v else v) := by
  simp only [UserService.updateById, User.update] at h
  split at h
  · exact absurd h (by simp)
  · simp only [Except.ok.injEq, Prod.mk.injEq] at h
    rw [← h.2]

/-- After verifyEmail the store is unchanged or pointwise updated with
`{isVerified := true}` at the decoded id. -/
theorem verifyEmail_users_shape (token : Token) (now : Nat) (db : DB) :
    (AuthController.verifyEmail token now db).2 = db ∨
    ∃ pid : Nat, (AuthController.verifyEmail token now db).2.users =
      db.users.map (fun v => if v.id == pid then
        applyUpdate { isVerified := some true, password := none } v else v) := by
  unfold AuthController.verifyEmail
  cases hv : verifyToken token now with
  | error m =>
    left
    simp only [hv]
  | ok decoded =>
    cases hu : UserService.updateById { isVerified := some true, password := none }
        decoded.id db with
    | error m =>
      left
      simp only [hv, hu]
    | ok p =>
      obtain ⟨u, db2⟩ := p
      right
      refine ⟨decoded.id, ?_⟩
      simp only [hv, hu]
      exact UserService.updateById_ok _ _ _ _ _ hu

/-- After resetPassword the table is pointwise updated with the new hash at
the rows matching the email; isVerified is untouched. -/
theorem resetPassword_users_shape (email password : String) (db : DB) :
    (AuthController.resetPassword email password db).2.users =
      db.users.map (fun v => if v.email == email then
        applyUpdate { isVerified := none, password := some (hashPassword password) } v
      else v) := by
  simp only [AuthController.resetPassword, UserService.updatePassword, User.update]
  split <;> rfl

/-- The isVerified field after a partial update. -/
theorem applyUpdate_isVerified (f : UserUpdate) (u : UserRec) :
    (applyUpdate f u).isVerified = f.isVerified.getD u.isVerified := rfl

/-- Claim C8: across every operation of the auth flow, a user's isVerified
flag starts false at creation, never transitions from true back to false, and
changes at all only under the verify-email operation (hence it transitions to
true at most once, and only via that step). -/
theorem isVerified_flow_invariant :
    ∀ (op : Op) (db : DB),
    (∀ i : Nat, ∀ u v : UserRec, db.users[i]? = some u →
      (step op db).users[i]? = some v →
      u.isVerified = true → v.isVerified = true) ∧
    (Op.isVerifyEmail op = false →
      ∀ i : Nat, ∀ u v : UserRec, db.users[i]? = some u →
      (step op db).users[i]? = some v →
      v.isVerified = u.isVerified) ∧
    (∀ i : Nat, ∀ v : UserRec, db.users.length ≤ i →
      (step op db).users[i]? = some v → v.isVerified = false) := by
  intro op db
  have hshape :
      (step op db).users = db.users ∨
      (∃ row : UserRec, row.isVerified = false ∧
        (step op db).users = db.users ++ [row]) ∨
      (∃ f : UserUpdate, (f.isVerified = none ∨ f.isVerified = some true) ∧
        (Op.isVerifyEmail op = false → f.isVerified = none) ∧
        ∃ p : UserRec → Bool, (step op db).users =
          db.users.map (fun v => if p v then applyUpdate f v else v)) := by
    cases op with
    | opSignUp body now mailOk =>
      rcases signUp_users_shape body now mailOk db with h | ⟨row, hrow, h⟩
      · exact Or.inl h
      · exact Or.inr (Or.inl ⟨row, hrow, h⟩)
    | opVerifyEmail token now =>
      rcases verifyEmail_users_shape token now db with h | ⟨pid, h⟩
      · exact Or.inl (congrArg DB.users h)
      · refine Or.inr (Or.inr ⟨{ isVerified := some true, password := none },
          Or.inr rfl, ?_, ⟨fun v => v.id == pid, h⟩⟩)
        intro hfalse
        simp [Op.isVerifyEmail] at hfalse
    | opResetPassword email password =>
      exact Or.inr (Or.inr
        ⟨{ isVerified := none, password := some (hashPassword password) },
         Or.inl rfl, fun _ => rfl,
         ⟨fun v => v.email == email, resetPassword_users_shape email password db⟩⟩)
    | opSendResetPasswordEmail a b c d e => exact Or.inl rfl
    | opLoginUser a b c => exact Or.inl rfl
    | opSocialLogin a b => exact Or.inl rfl
    | opLogout => exact Or.inl rfl
  rcases hshape with hEq | ⟨row, hrowF, hEq⟩ | ⟨f, hfOpt, hfNone, p, hEq⟩
  · refine ⟨?_, ?_, ?_⟩
    · intro i u v hu hv htrue
      rw [hEq, hu] at hv
      injection hv with h
      rw [← h]
      exact htrue
    · intro _ i u v hu hv
      rw [hEq, hu] at hv
      injection hv with h
      rw [← h]
    · intro i v hlen hv
      rw [hEq, List.getElem?_eq_none hlen] at hv
      exact Option.noConfusion hv
  · refine ⟨?_, ?_, ?_⟩
    · intro i u v hu hv htrue
      have hlt : i < db.users.length := by
        by_contra hge
        rw [List.getElem?_eq_none (Nat.le_of_not_lt hge)] at hu
        exact Option.noConfusion hu
      rw [hEq, List.getElem?_append_left hlt, hu] at hv
      injection hv with h
      rw [← h]
      exact htrue
    · intro _ i u v hu hv
      have hlt : i < db.users.length := by
        by_contra hge
        rw [List.getElem?_eq_none (Nat.le_of_not_lt hge)] at hu
        exact Option.noConfusion hu
      rw [hEq, List.getElem?_append_left hlt, hu] at hv
      injection hv with h
      rw [← h]
    · intro i v hlen hv
      rw [hEq, List.getElem?_append_right hlen] at hv
      cases hd : i - db.users.length with
      | zero =>
        rw [hd] at hv
        injection hv with h
        rw [← h]
        exact hrowF
      | succ n =>
        rw [hd] at hv
        simp at hv
  · refine ⟨?_, ?_, ?_⟩
    · intro i u v hu hv htrue
      rw [hEq, List.getElem?_map, hu] at hv
      simp only [Option.map_some'] at hv
      injection hv with h
      rw [← h]
      by_cases hp : p u = true
      · rw [if_pos hp]
        rcases hfOpt with hnone | hsome
        · rw [applyUpdate_isVerified, hnone, Option.getD_none]
          exact htrue
        · rw [applyUpdate_isVerified, hsome, Option.getD_some]
      · rw [if_neg hp]
        exact htrue
    · intro hop i u v hu hv
      have hfN := hfNone hop
      rw [hEq, List.getElem?_map, hu] at hv
      simp only [Option.map_some'] at hv
      injection hv with h
      rw [← h]
      by_cases hp : p u = true
      · rw [if_pos hp, applyUpdate_isVerified, hfN, Option.getD_none]
      · rw [if_neg hp]
    · intro i v hlen hv
      have hlen2 : (db.users.map (fun v => if p v then applyUpdate f v else v)).length ≤ i := by
        rw [List.length_map]
        exact hlen
      rw [hEq, List.getElem?_eq_none hlen2] at hv
      exact Option.noConfusion hv

/-- A user row that is already verified, for exercising the invariant. -/
def sampleVerifiedUser : UserRec :=
  { id := 7, firstName := "Vera", lastName := "Chuks",
    email := "vera@example.com", password := hashPassword "pw0",
    role := "requester", isVerified := true }

/-- A store holding exactly sampleVerifiedUser. -/
def verifiedDb : DB := { users := [sampleVerifiedUser], nextId := 8 }

/-- sampleVerifiedUser after a resetPassword to "npw". -/
def sampleUpdatedRow : UserRec :=
  { sampleVerifiedUser with password := hashPassword "npw" }

/-- The row signUp appends for sampleNewUser in verifiedDb. -/
def sampleSignupRow : UserRec :=
  { id := 8, firstName := "Grace", lastName := "Hopper",
    email := "grace@example.com", password := hashPassword "pa55word",
    role := "requester", isVerified := false }

/-- Witness for C8 at concrete operations: resetPassword keeps a verified
flag true and unchanged (a non-verify-email operation), and signUp creates
its new row unverified. -/
theorem isVerified_flow_invariant_witness :
    sampleUpdatedRow.isVerified = true ∧
    sampleUpdatedRow.isVerified = sampleVerifiedUser.isVerified ∧
    sampleSignupRow.isVerified = false :=
  ⟨(isVerified_flow_invariant (.opResetPassword "vera@example.com" "npw")
      verifiedDb).1 0 sampleVerifiedUser sampleUpdatedRow rfl rfl rfl,
   (isVerified_flow_invariant (.opResetPassword "vera@example.com" "npw")
      verifiedDb).2.1 rfl 0 sampleVerifiedUser sampleUpdatedRow rfl rfl,
   (isVerified_flow_invariant (.opSignUp sampleNewUser 0 true)
      verifiedDb).2.2 1 sampleSignupRow (by decide) rfl⟩

end Jubilee
